import Mathlib

/-!
Verification of the restflex/rest HTTP middleware layer.

This development is a shallow embedding of the repository's request-dispatch
logic.  The primary dispatcher is `handler.ServeHTTP` in `src/restflex.go`
(the `restflex` package, errors-array wire shape); the near-duplicate variant
`API.ServeHTTP` in `src/rest.go` (message-string wire shape, with a timeout
watcher goroutine) is embedded where a claim cites it.

Modelling conventions:
- Handler invocations are modelled by their observable behaviour: the list of
  operations they perform on the (tracked) response writer, plus the returned
  error, as a tagged variant (nil / structured API error / opaque error).
- The underlying response sink is modelled after `net/http/httptest`'s
  `ResponseRecorder`, which the repository's own tests use as the client view:
  the first written status line wins, body bytes concatenate, and the header
  map is snapshotted (committed) at the first status/body write.  Content
  sniffing for bodies written before any status line is not modelled (no
  verified path exercises it).
- JSON serialization follows Go's `encoding/json` on the shapes used by the
  code: struct fields in declaration order, a nil string slice encoded as
  `null`, `Encoder.Encode` appending a newline, and HTML-escaping of the
  characters `<`, `>`, `&` (plus `"`, `\`, and the common control characters
  that `encoding/json` writes as two-character escapes).  Control characters
  outside that set never occur in any string of this development.
-/

/-! ## Characters and JSON encoding (Go encoding/json on the shapes used) -/

/-- Escape a single character the way Go's `encoding/json` encoder does for
the characters occurring in this development (HTML escaping on, as in the
default `json.Encoder` used by `EncodeJSON`). -/
def escChar (c : Char) : List Char :=
  if c = '"' then ['\\', '"']
  else if c = '\\' then ['\\', '\\']
  else if c = '\n' then ['\\', 'n']
  else if c = '\r' then ['\\', 'r']
  else if c = '\t' then ['\\', 't']
  else if c = '<' then ['\\', 'u', '0', '0', '3', 'c']
  else if c = '>' then ['\\', 'u', '0', '0', '3', 'e']
  else if c = '&' then ['\\', 'u', '0', '0', '2', '6']
  else [c]

/-- Escape a character list (JSON string body, between the quotes). -/
def escList : List Char → List Char
  | [] => []
  | c :: cs => escChar c ++ escList cs

/-- Encode one JSON string, quotes included. -/
def encStr (m : List Char) : List Char :=
  '"' :: escList m ++ ['"']

/-- Encode the comma-separated items of a nonempty JSON string array. -/
def encItems : List (List Char) → List Char
  | [] => []
  | [m] => encStr m
  | m :: ms => encStr m ++ ',' :: encItems ms

/-- Encode a Go `[]string`: a nil/empty slice marshals to `null` (the
dispatcher only ever passes a nil slice in the empty case), a nonempty one
to a JSON array. -/
def encArr : List (List Char) → List Char
  | [] => "null".data
  | m :: ms => '[' :: encItems (m :: ms) ++ [']']

/-- The fixed prefix of the errors-array body. -/
def errBodyHead : List Char := "\x7b\"errors\":".data

/-- Body produced by `EncodeJSON(w, &msg)` for `ErrorMessage` in
`src/restflex.go` (struct with the single field tagged `errors`);
`json.Encoder.Encode` appends a newline. -/
def encodeErrorBody (messages : List String) : String :=
  String.mk (errBodyHead ++ encArr (messages.map String.data) ++ ['\x7d', '\n'])

/-- Body produced by `EncodeJSON(w, &msg)` for `ErrorMessage` in
`src/rest.go` (struct with the single field tagged `message`). -/
def encodeMessageBody (message : String) : String :=
  String.mk ("\x7b\"message\":".data ++ encStr message.data ++ ['\x7d', '\n'])

/-! ## JSON decoding of the errors-array body

An executable decoder for the wire shape written above, used to state the
claims' "decoded error message list".  It is a character-at-a-time state
machine run with `List.foldl`. -/

/-- Decode the four hex digits of the `\uXXXX` escapes the encoder emits. -/
def decodeU : List Char → Option Char
  | ['0', '0', '3', 'c'] => some '<'
  | ['0', '0', '3', 'e'] => some '>'
  | ['0', '0', '2', '6'] => some '&'
  | _ => none

/-- Decode a two-character JSON escape. -/
def unesc : Char → Option Char
  | '"' => some '"'
  | '\\' => some '\\'
  | 'n' => some '\n'
  | 'r' => some '\r'
  | 't' => some '\t'
  | _ => none

/-- Parser state for the `⦃"errors":[...]⦄` body after the opening `[`. -/
inductive JState where
  | expectStr (done : List (List Char))
  | inStr (done : List (List Char)) (cur : List Char)
  | esc (done : List (List Char)) (cur : List Char)
  | uEsc (done : List (List Char)) (cur : List Char) (ds : List Char)
  | afterStr (done : List (List Char))
  | closed (done : List (List Char))
  | braced (done : List (List Char))
  | accept (done : List (List Char))
  | bad
  deriving Repr, DecidableEq

/-- One step of the JSON array parser. -/
def jstep : JState → Char → JState
  | .expectStr done, c => if c = '"' then .inStr done [] else .bad
  | .inStr done cur, c =>
      if c = '"' then .afterStr (done ++ [cur])
      else if c = '\\' then .esc done cur
      else .inStr done (cur ++ [c])
  | .esc done cur, c =>
      if c = 'u' then .uEsc done cur []
      else
        match unesc c with
        | some d => .inStr done (cur ++ [d])
        | none => .bad
  | .uEsc done cur ds, c =>
      if ds.length = 3 then
        match decodeU (ds ++ [c]) with
        | some d => .inStr done (cur ++ [d])
        | none => .bad
      else .uEsc done cur (ds ++ [c])
  | .afterStr done, c =>
      if c = ',' then .expectStr done
      else if c = ']' then .closed done
      else .bad
  | .closed done, c => if c = '\x7d' then .braced done else .bad
  | .braced done, c => if c = '\n' then .accept done else .bad
  | .accept _, _ => .bad
  | .bad, _ => .bad

/-- Decode what follows the fixed body prefix: either the `null` form of an
empty list, or a string array consumed by the state machine, followed by the
closing brace and the encoder's newline. -/
def decodeAfterHead : List Char → Option (List String)
  | '[' :: items =>
      match items.foldl jstep (.expectStr []) with
      | .accept done => some (done.map String.mk)
      | _ => none
  | l => if l = "null\x7d\n".data then some [] else none

/-- Decode an errors-array wire body back to the message list, as the
repository's tests do with `json.Decoder` into `ErrorMessage`. -/
def decodeErrorBody (s : String) : Option (List String) :=
  if s.data.take errBodyHead.length = errBodyHead then
    decodeAfterHead (s.data.drop errBodyHead.length)
  else none

/-! ## Response sink operations and the client view

Operations a handler or the dispatcher performs on an `http.ResponseWriter`.
Header sets go through the promoted `Header()` of the wrapped writer, so the
tracked writer does not intercept them. -/

/-- One operation on the response sink. -/
inductive WriteOp where
  | setHeader (key value : String)
  | writeHeader (status : Nat)
  | write (data : String)
  deriving Repr, DecidableEq

/-- Whether an operation is a pure header-map mutation (no status or body). -/
def WriteOp.isSet : WriteOp → Bool
  | .setHeader _ _ => true
  | _ => false

/-- Set a key in a header map, replacing any previous value (Go
`Header().Set`; the keys used here are already in canonical form). -/
def headerSet (m : List (String × String)) (k v : String) : List (String × String) :=
  (k, v) :: m.filter (fun p => p.1 ≠ k)

/-- The underlying response sink as the client observes it, modelled after
`net/http/httptest.ResponseRecorder` (used by the repository's tests): the
first status/body write commits the status code and snapshots the headers;
later `WriteHeader` calls are superfluous and ignored; body bytes
concatenate. -/
structure Recorder where
  headerMap : List (String × String)
  wroteHeader : Bool
  code : Nat
  snapHeader : List (String × String)
  body : String
  deriving Repr, DecidableEq

/-- Fresh recorder: code defaults to 200, nothing written. -/
def Recorder.init : Recorder :=
  { headerMap := [], wroteHeader := false, code := 200, snapHeader := [], body := "" }

/-- Apply one sink operation to the recorder. -/
def Recorder.applyOp : Recorder → WriteOp → Recorder
  | rec, .setHeader k v => { rec with headerMap := headerSet rec.headerMap k v }
  | rec, .writeHeader c =>
      if rec.wroteHeader then rec
      else { rec with wroteHeader := true, code := c, snapHeader := rec.headerMap }
  | rec, .write s =>
      if rec.wroteHeader then { rec with body := rec.body ++ s }
      else { rec with wroteHeader := true, code := 200, snapHeader := rec.headerMap,
                      body := rec.body ++ s }

/-- Replay a trace of sink operations on a recorder. -/
def replay (rec : Recorder) (t : List WriteOp) : Recorder :=
  t.foldl Recorder.applyOp rec

/-- The terminal response the client observes for a whole trace. -/
def clientView (t : List WriteOp) : Recorder :=
  replay Recorder.init t

/-! ## The tracked response writer

From `src/response_writer.go` / `src/unnamed/part_002` (`responseWriter`):
`WriteHeader` forwards, then records the status and sets `isWritten`;
`Write` forwards and sets `isWritten`. -/

/-- Tracked state of the dispatcher's `responseWriter` wrapper. -/
structure RWState where
  isWritten : Bool
  status : Nat
  deriving Repr, DecidableEq

/-- Tracker update for one forwarded operation (`src/unnamed/part_002`,
lines 15-27): header sets are not intercepted. -/
def RWState.applyOp : RWState → WriteOp → RWState
  | s, .setHeader _ _ => s
  | _, .writeHeader c => { isWritten := true, status := c }
  | s, .write _ => { s with isWritten := true }

/-- Tracker state after a list of forwarded operations. -/
def applyOps (s : RWState) (ops : List WriteOp) : RWState :=
  ops.foldl RWState.applyOp s

/-- Initial tracker state in `src/restflex.go` lines 63-66
(`status: http.StatusOK`, `isWritten` zero-valued false). -/
def RWState.start : RWState := { isWritten := false, status := 200 }

/-- Underlying sink `Write` as a function from the byte slice to the
returned `(count, error)` pair, for the tracker pass-through claim. -/
def SinkWrite := String → Nat × Option String

/-- The tracked writer of `src/response_writer.go` as explicit state. -/
structure TrackedWriter where
  isWritten : Bool
  status : Nat
  deriving Repr, DecidableEq

/-- Translation of `responseWriter.Write` (`src/response_writer.go` lines
19-23): forward to the underlying sink, set `isWritten`, and return the
underlying count and error unchanged. -/
def trackedWrite (underlying : SinkWrite) (w : TrackedWriter) (b : String) :
    TrackedWriter × (Nat × Option String) :=
  let r := underlying b
  ({ w with isWritten := true }, r)

/-! ## Content-Type gate

Translation of the gate in `src/restflex.go` lines 32-62 (identical in
`src/rest.go` and the unnamed variants).  The header value is split on
commas and each piece goes through `mime.ParseMediaType`; pieces that fail
to parse are skipped; the request passes if any parsed media type has an
accepted prefix. -/

/-- The tspecials characters of Go's `mime` package. -/
def tspecials : List Char :=
  ['(', ')', '<', '>', '@', ',', ';', ':', '\\', '"', '/', '[', ']', '?', '=']

/-- Token characters per Go's `mime` package (`isTokenChar`): printable
ASCII excluding tspecials. -/
def isTokenChar (c : Char) : Bool :=
  decide (0x20 < c.toNat) && decide (c.toNat < 0x7f) && !(tspecials.contains c)

/-- Media-type shape check per Go's `mime.checkMediaTypeDisposition`:
a token, optionally followed by a slash and a second token, nothing after. -/
def checkMediaTypeDisposition (s : List Char) : Bool :=
  let typ := s.takeWhile isTokenChar
  let rest := s.dropWhile isTokenChar
  if typ.isEmpty then false
  else
    match rest with
    | [] => true
    | '/' :: r2 =>
        let sub := r2.takeWhile isTokenChar
        let r3 := r2.dropWhile isTokenChar
        !sub.isEmpty && r3.isEmpty
    | _ => false

/-- Split a character list on a separator character; like Go's
`strings.Split`, the empty input yields one empty piece. -/
def splitOnChar (sep : Char) : List Char → List (List Char)
  | [] => [[]]
  | c :: rest =>
      let r := splitOnChar sep rest
      if c = sep then [] :: r
      else
        match r with
        | h :: t => (c :: h) :: t
        | [] => [[c]]

/-- Drop leading and trailing whitespace (Go `strings.TrimSpace` on the
ASCII whitespace occurring in header values). -/
def trimChars (l : List Char) : List Char :=
  ((l.dropWhile Char.isWhitespace).reverse.dropWhile Char.isWhitespace).reverse

/-- Model of Go's `mime.ParseMediaType` restricted to the media type it
returns: cut at the first `;`, lowercase, trim, and validate the shape.
Go additionally validates the parameter section after `;` and reports an
error for malformed parameters; that validation is not modelled (none of
the verified inputs carry parameters that Go would reject). -/
def parseMediaType (v : List Char) : Option (List Char) :=
  let base := (splitOnChar ';' v).headD []
  let t := trimChars (base.map Char.toLower)
  if checkMediaTypeDisposition t then some t else none

/-- The accepted content types of `src/restflex.go` lines 34-37. -/
def acceptedContentTypes : List String :=
  ["application/json", "application/x-www-form-urlencoded"]

/-- Gate acceptance: some comma-separated piece of the `Content-Type`
header parses and has an accepted prefix (`src/restflex.go` lines 33-50). -/
def contentTypeAccepted (contentType : String) : Bool :=
  (splitOnChar ',' contentType.data).any fun v =>
    match parseMediaType v with
    | some t => acceptedContentTypes.any fun a => a.data.isPrefixOf t
    | none => false

/-- Mutating methods subject to the gate (`src/restflex.go` line 32). -/
def isMutating (method : String) : Bool :=
  method = "POST" || method = "PUT" || method = "PATCH"

/-- An inbound request as far as the dispatcher inspects it.  A missing
`Content-Type` header is the empty string, as returned by `Header.Get`. -/
structure Request where
  method : String
  contentType : String
  deriving Repr, DecidableEq

/-- Whether the gate rejects the request before invoking the handler. -/
def gateRejects (r : Request) : Bool :=
  isMutating r.method && !contentTypeAccepted r.contentType

/-- Go's `%q` for the plain ASCII strings quoted in the gate message. -/
def quoteGo (s : String) : String := "\"" ++ s ++ "\""

/-- The gate rejection message, translated from the loop in
`src/restflex.go` lines 52-58 including its index arithmetic: the separator
is appended whenever `i-1 < len(acceptedContentTypes)` (Go ints), which
holds for every index. -/
def gateMsg : String :=
  acceptedContentTypes.enum.foldl
    (fun m p =>
      let m2 := m ++ quoteGo p.2
      if (p.1 : Int) - 1 < (acceptedContentTypes.length : Int) then m2 ++ " or " else m2)
    "POST, PUT, and PATCH methods require request content type of "

/-! ## Handler outcomes and the dispatcher -/

/-- Reason phrases of Go's `net/http.StatusText` for the codes this
development touches. -/
def statusText (code : Nat) : String :=
  if code = 400 then "Bad Request"
  else if code = 401 then "Unauthorized"
  else if code = 404 then "Not Found"
  else if code = 415 then "Unsupported Media Type"
  else if code = 422 then "Unprocessable Entity"
  else if code = 429 then "Too Many Requests"
  else if code = 500 then "Internal Server Error"
  else if code = 501 then "Not Implemented"
  else ""

/-- The value a handler returns, as the dispatcher classifies it with
`errors.As` (`src/restflex.go` lines 75-76): `nil`, an error that is or
wraps an `APIError` (carrying the status code, the `Errors()` message list
of `src/error.go` lines 68-70, and an optional cause that is never
serialized), or an opaque error carrying only its text. -/
inductive HResult where
  | ok
  | apiErr (statusCode : Nat) (messages : List String) (causeText : Option String)
  | opaqueErr (text : String)
  deriving Repr, DecidableEq

/-- Observable behaviour of one handler invocation: the operations it
performs on the tracked response writer, and its returned value. -/
structure HandlerBehavior where
  ops : List WriteOp
  result : HResult
  deriving Repr, DecidableEq

/-- Value of the `Content-Type` response header the error responders set. -/
def contentTypeJSON : String := "application/json; charset=utf-8"

/-- Trace of `handler.Error` in `src/restflex.go` lines 108-116: status
line first, then the `Content-Type` header set, then the encoded
`ErrorMessage` body (note the order: the header is set only after
`WriteHeader` has committed the headers). -/
def errorWriteFlex (statusCode : Nat) (messages : List String) : List WriteOp :=
  [.writeHeader statusCode,
   .setHeader "Content-Type" contentTypeJSON,
   .write (encodeErrorBody messages)]

/-- Trace of `API.Error` in `src/rest.go` lines 143-153 (message-string
wire shape, same WriteHeader-before-Set order). -/
def errorWriteRest (message : String) (statusCode : Nat) : List WriteOp :=
  [.writeHeader statusCode,
   .setHeader "Content-Type" contentTypeJSON,
   .write (encodeMessageBody message)]

/-- Result of one dispatch: the full trace of operations that reached the
underlying response sink, and how many times the wrapped handler ran. -/
structure DispatchResult where
  trace : List WriteOp
  handlerInvocations : Nat
  deriving Repr, DecidableEq

/-- Translation of `handler.ServeHTTP` in `src/restflex.go` lines 31-94:
gate check; on rejection the 415 error response and no handler invocation;
otherwise the handler runs against a fresh tracked writer, and its outcome
is classified exactly as the code does (the logging statements perform no
writes and are not modelled):
nil and nothing written yields the 501 response; nil with something written
yields no further write; a structured API error yields its status and
`Errors()` list; any other error yields 500 with the reason phrase. -/
def dispatch (r : Request) (hb : HandlerBehavior) : DispatchResult :=
  if gateRejects r then
    { trace := errorWriteFlex 415 [gateMsg], handlerInvocations := 0 }
  else
    let rw := applyOps RWState.start hb.ops
    if hb.result = .ok && !rw.isWritten then
      { trace := hb.ops ++ errorWriteFlex 501 [statusText 501], handlerInvocations := 1 }
    else
      match hb.result with
      | .ok => { trace := hb.ops, handlerInvocations := 1 }
      | .apiErr s m _ => { trace := hb.ops ++ errorWriteFlex s m, handlerInvocations := 1 }
      | .opaqueErr _ =>
          { trace := hb.ops ++ errorWriteFlex 500 [statusText 500], handlerInvocations := 1 }

/-! ## Timeout watcher of the rest variant

The goroutine of `src/rest.go` lines 71-84 suspends on the execution
context's cancellation and branches on the cancellation cause.  The
real-time race itself is not embeddable; its decision logic is. -/

/-- Why the execution context's `Done` channel closed. -/
inductive CtxReason where
  | deadlineExceeded
  | canceled
  deriving Repr, DecidableEq

/-- What the watcher writes for each cancellation cause (`src/rest.go`
lines 73-83): the 429 timeout response on deadline expiry, nothing on a
benign cancellation. -/
def watcherTrace : CtxReason → List WriteOp
  | .deadlineExceeded => errorWriteRest "request took too long to complete" 429
  | .canceled => []

/-! ## JSON codec helpers -/

/-- Outcome of the underlying `json.Decoder.Decode` call, abstracted to
success or failure with the decoder's error text. -/
inductive DecodeOutcome where
  | ok
  | fail (causeText : String)
  deriving Repr, DecidableEq

/-- The `apiError` value of `src/error.go` lines 27-39 (restflex flavour):
status code, optional wrapped cause, message list. -/
structure APIErrorVal where
  statusCode : Nat
  cause : Option String
  messages : List String
  deriving Repr, DecidableEq

/-- Accessor `apiError.Errors` of `src/error.go` lines 68-70: the message
list as constructed, with no defaulting. -/
def APIErrorVal.errorsList (e : APIErrorVal) : List String := e.messages

/-- Constructor `NewAPIError` of `src/error.go` lines 33-39. -/
def NewAPIErrorVal (statusCode : Nat) (cause : Option String) (messages : List String) :
    APIErrorVal :=
  { statusCode := statusCode, cause := cause, messages := messages }

/-- Translation of `DecodeJSON` in `src/restflex.go` lines 127-134: a
decoding failure is wrapped as `NewAPIError(http.StatusBadRequest, cause)`
with no messages; success returns nil. -/
def DecodeJSONFlex : DecodeOutcome → Option APIErrorVal
  | .ok => none
  | .fail c => some (NewAPIErrorVal 400 (some c) [])

/-- The `basicAPIError` of `src/error.go` lines 103-106 (rest flavour). -/
structure BasicAPIError where
  statusCode : Nat
  message : String
  deriving Repr, DecidableEq

/-- `ErrInvalidRequestBody` of `src/error.go` line 89 (rest flavour). -/
def ErrInvalidRequestBody : BasicAPIError :=
  { statusCode := 400, message := "expecting well formed JSON request body" }

/-- The `APIErrorWithCause` wrapper of `src/error.go` lines 156-160:
delegates `StatusCode` and `ErrorAPI` to the wrapped error, `Error()` to
the cause. -/
structure APIErrorWithCause where
  causeText : String
  wrapped : BasicAPIError
  deriving Repr, DecidableEq

/-- Translation of `DecodeJSON` in `src/rest.go` lines 164-171: a decoding
failure is wrapped as `NewAPIErrorWithCause(err, ErrInvalidRequestBody)`;
success returns nil. -/
def DecodeJSONRest : DecodeOutcome → Option APIErrorWithCause
  | .ok => none
  | .fail c => some { causeText := c, wrapped := ErrInvalidRequestBody }

/-! ## Round trip of the errors-array wire body -/

/-- Rebuilding a string from its characters is the identity. -/
theorem mk_data (s : String) : String.mk s.data = s := rfl

/-- Mapping to characters and back is the identity on string lists. -/
theorem map_mk_data (ms : List String) : (ms.map String.data).map String.mk = ms := by
  induction ms with
  | nil => rfl
  | cons m ms ih => simp [ih, mk_data]

/-- Parser step: an opening quote enters string mode. -/
theorem jstep_expect_quote (done : List (List Char)) :
    jstep (JState.expectStr done) '"' = JState.inStr done [] := rfl

/-- Parser step: a closing quote finishes the current string. -/
theorem jstep_in_quote (done : List (List Char)) (cur : List Char) :
    jstep (JState.inStr done cur) '"' = JState.afterStr (done ++ [cur]) := rfl

/-- Parser step: an unescaped ordinary character is appended verbatim. -/
theorem jstep_in_other (done : List (List Char)) (cur : List Char) (c : Char)
    (h1 : ¬c = '"') (h2 : ¬c = '\\') :
    jstep (JState.inStr done cur) c = JState.inStr done (cur ++ [c]) := by
  simp [jstep, h1, h2]

/-- Parser step: a comma after a string expects the next string. -/
theorem jstep_after_comma (done : List (List Char)) :
    jstep (JState.afterStr done) ',' = JState.expectStr done := rfl

/-- Parser step: a closing bracket after a string closes the array. -/
theorem jstep_after_close (done : List (List Char)) :
    jstep (JState.afterStr done) ']' = JState.closed done := rfl

/-- Consuming the escape of one character restores that character. -/
theorem foldl_escChar (c : Char) (done : List (List Char)) (cur l : List Char) :
    List.foldl jstep (JState.inStr done cur) (escChar c ++ l)
      = List.foldl jstep (JState.inStr done (cur ++ [c])) l := by
  by_cases h1 : c = '"'
  · subst h1; rfl
  by_cases h2 : c = '\\'
  · subst h2; rfl
  by_cases h3 : c = '\n'
  · subst h3; rfl
  by_cases h4 : c = '\r'
  · subst h4; rfl
  by_cases h5 : c = '\t'
  · subst h5; rfl
  by_cases h6 : c = '<'
  · subst h6; rfl
  by_cases h7 : c = '>'
  · subst h7; rfl
  by_cases h8 : c = '&'
  · subst h8; rfl
  have he : escChar c = [c] := by simp [escChar, h1, h2, h3, h4, h5, h6, h7, h8]
  rw [he, List.singleton_append, List.foldl_cons, jstep_in_other done cur c h1 h2]

/-- Consuming an escaped string body followed by its closing quote yields
exactly that string. -/
theorem foldl_esc (m : List Char) : ∀ (done : List (List Char)) (cur rest : List Char),
    List.foldl jstep (JState.inStr done cur) (escList m ++ '"' :: rest)
      = List.foldl jstep (JState.afterStr (done ++ [cur ++ m])) rest := by
  induction m with
  | nil =>
    intro done cur rest
    show List.foldl jstep (JState.inStr done cur) ('"' :: rest) = _
    rw [List.foldl_cons, jstep_in_quote]
    simp
  | cons c m ih =>
    intro done cur rest
    have hsplit : escList (c :: m) ++ '"' :: rest = escChar c ++ (escList m ++ '"' :: rest) := by
      simp [escList, List.append_assoc]
    rw [hsplit, foldl_escChar, ih]
    simp [List.append_assoc]

/-- Consuming the encoded items of a nonempty array and the closing bracket
accumulates exactly those items. -/
theorem foldl_items (ms : List (List Char)) : ∀ (m : List Char) (done : List (List Char))
    (rest : List Char),
    List.foldl jstep (JState.expectStr done) (encItems (m :: ms) ++ ']' :: rest)
      = List.foldl jstep (JState.closed (done ++ m :: ms)) rest := by
  induction ms with
  | nil =>
    intro m done rest
    have h1 : encItems [m] ++ ']' :: rest = '"' :: (escList m ++ '"' :: (']' :: rest)) := by
      simp [encItems, encStr, List.append_assoc]
    rw [h1, List.foldl_cons, jstep_expect_quote, foldl_esc, List.foldl_cons, jstep_after_close]
    simp
  | cons m2 ms ih =>
    intro m done rest
    have h1 : encItems (m :: m2 :: ms) ++ ']' :: rest
        = '"' :: (escList m ++ '"' :: (',' :: (encItems (m2 :: ms) ++ ']' :: rest))) := by
      simp [encItems, encStr, List.append_assoc]
    rw [h1, List.foldl_cons, jstep_expect_quote, foldl_esc, List.foldl_cons, jstep_after_comma,
      ih]
    simp

/-- Round trip: decoding an encoded errors-array body recovers the message
list exactly (in particular the empty list comes back from `null`, not from
any reason phrase). -/
theorem decode_encode (M : List String) : decodeErrorBody (encodeErrorBody M) = some M := by
  cases M with
  | nil => decide
  | cons m ms =>
    have hdata : (encodeErrorBody (m :: ms)).data
        = errBodyHead
            ++ ('[' :: (encItems (m.data :: ms.map String.data) ++ ']' :: '\x7d' :: '\n' :: [])) := by
      simp [encodeErrorBody, encArr, List.append_assoc]
    rw [decodeErrorBody, hdata, List.take_left, if_pos rfl, List.drop_left, decodeAfterHead,
      foldl_items]
    show (match List.foldl jstep (JState.closed ([] ++ m.data :: ms.map String.data))
          ('\x7d' :: '\n' :: []) with
        | JState.accept done => some (done.map String.mk)
        | _ => none) = some (m :: ms)
    rw [show List.foldl jstep (JState.closed ([] ++ m.data :: ms.map String.data))
          ('\x7d' :: '\n' :: [])
        = JState.accept (m.data :: ms.map String.data) from rfl]
    simp [map_mk_data, mk_data, List.map_map, Function.comp_def]

/-! ## Helper lemmas about the tracker and the client view -/

/-- Appending an empty prefix of body bytes is the identity. -/
theorem string_empty_append (s : String) : "" ++ s = s := rfl

/-- Once the tracker has seen a status or body write, it stays written. -/
theorem applyOps_isWritten_mono (ops : List WriteOp) : ∀ (s : RWState), s.isWritten = true →
    (applyOps s ops).isWritten = true := by
  induction ops with
  | nil => intro s h; exact h
  | cons op ops ih =>
    intro s h
    cases op with
    | setHeader k v => exact ih _ h
    | writeHeader c => exact ih _ rfl
    | write d => exact ih _ rfl

/-- A handler run that leaves the tracker unwritten performed only header
sets. -/
theorem isWritten_false_ops (ops : List WriteOp) : ∀ (s : RWState),
    (applyOps s ops).isWritten = false → ∀ op ∈ ops, op.isSet = true := by
  induction ops with
  | nil => intro s _ op hop; cases hop
  | cons op ops ih =>
    intro s h
    cases op with
    | setHeader k v =>
      intro op' hop'
      rcases List.mem_cons.mp hop' with h1 | h2
      · subst h1; rfl
      · exact ih _ h op' h2
    | writeHeader c =>
      exfalso
      have hm := applyOps_isWritten_mono ops { isWritten := true, status := c } rfl
      have h' : (applyOps { isWritten := true, status := c } ops).isWritten = false := h
      rw [hm] at h'
      cases h'
    | write d =>
      exfalso
      have hm := applyOps_isWritten_mono ops { s with isWritten := true } rfl
      have h' : (applyOps { s with isWritten := true } ops).isWritten = false := h
      rw [hm] at h'
      cases h'

/-- Replaying pure header sets changes neither commit state, code nor body. -/
theorem replay_setOnly (ops : List WriteOp) : ∀ (rec : Recorder),
    (∀ op ∈ ops, op.isSet = true) →
    (replay rec ops).wroteHeader = rec.wroteHeader ∧
    (replay rec ops).code = rec.code ∧
    (replay rec ops).body = rec.body := by
  induction ops with
  | nil => intro rec _; exact ⟨rfl, rfl, rfl⟩
  | cons op ops ih =>
    intro rec hall
    cases op with
    | setHeader k v =>
      exact ih { rec with headerMap := headerSet rec.headerMap k v }
        (fun op hop => hall op (List.mem_cons_of_mem _ hop))
    | writeHeader c =>
      have := hall _ (List.mem_cons_self _ _)
      simp [WriteOp.isSet] at this
    | write d =>
      have := hall _ (List.mem_cons_self _ _)
      simp [WriteOp.isSet] at this

/-- A trace splits into the handler's part and the dispatcher's part. -/
theorem clientView_append (a b : List WriteOp) :
    clientView (a ++ b) = replay (replay Recorder.init a) b := by
  simp [clientView, replay, List.foldl_append]

/-- Replaying an error-responder trace on an uncommitted recorder: the
status code is committed, the body appended, and — because the responder
sets `Content-Type` only after `WriteHeader` — the header snapshot the
client sees is whatever the map held before. -/
theorem replay_errorWriteFlex (rec : Recorder) (h : rec.wroteHeader = false)
    (status : Nat) (messages : List String) :
    (replay rec (errorWriteFlex status messages)).code = status ∧
    (replay rec (errorWriteFlex status messages)).body = rec.body ++ encodeErrorBody messages ∧
    (replay rec (errorWriteFlex status messages)).snapHeader = rec.headerMap := by
  simp [errorWriteFlex, replay, Recorder.applyOp, h]

/-! ## Claim C2 -/

/-- Claim C2 (confirmed): a handler that returns nil without having written
any status line or body bytes through the tracked response writer yields a
dispatcher response with HTTP status 501 whose decoded error message list is
exactly the standard reason phrase for 501, `["Not Implemented"]`. -/
theorem claim_C2 (r : Request) (hb : HandlerBehavior)
    (hgate : gateRejects r = false)
    (hres : hb.result = HResult.ok)
    (hw : (applyOps RWState.start hb.ops).isWritten = false) :
    dispatch r hb
      = { trace := hb.ops ++ errorWriteFlex 501 ["Not Implemented"], handlerInvocations := 1 } ∧
    (clientView (dispatch r hb).trace).code = 501 ∧
    decodeErrorBody (clientView (dispatch r hb).trace).body = some ["Not Implemented"] := by
  have hd : dispatch r hb
      = { trace := hb.ops ++ errorWriteFlex 501 [statusText 501], handlerInvocations := 1 } := by
    simp [dispatch, hgate, hres, hw]
  rw [show statusText 501 = "Not Implemented" from rfl] at hd
  have hall := isWritten_false_ops hb.ops RWState.start hw
  have hro := replay_setOnly hb.ops Recorder.init hall
  have hwh : (replay Recorder.init hb.ops).wroteHeader = false := hro.1
  have hew := replay_errorWriteFlex (replay Recorder.init hb.ops) hwh 501 ["Not Implemented"]
  have hbody : (replay Recorder.init hb.ops).body = "" := hro.2.2
  refine ⟨hd, ?_, ?_⟩
  · rw [hd]
    show (clientView (hb.ops ++ errorWriteFlex 501 ["Not Implemented"])).code = 501
    rw [clientView_append]
    exact hew.1
  · rw [hd]
    show decodeErrorBody (clientView (hb.ops ++ errorWriteFlex 501 ["Not Implemented"])).body
        = some ["Not Implemented"]
    rw [clientView_append]
    have h2 := hew.2.1
    rw [hbody, string_empty_append] at h2
    rw [h2]
    exact decode_encode ["Not Implemented"]

/-- Witness for C2 at a concrete input: a GET request and a handler that
performs no writes and returns nil. -/
theorem claim_C2_witness :
    gateRejects { method := "GET", contentType := "" } = false ∧
    (applyOps RWState.start ([] : List WriteOp)).isWritten = false ∧
    ((clientView (dispatch { method := "GET", contentType := "" }
        { ops := [], result := HResult.ok }).trace).code = 501 ∧
      decodeErrorBody (clientView (dispatch { method := "GET", contentType := "" }
        { ops := [], result := HResult.ok }).trace).body = some ["Not Implemented"]) :=
  ⟨rfl, rfl,
    (claim_C2 { method := "GET", contentType := "" } { ops := [], result := HResult.ok }
      rfl rfl rfl).2⟩

/-! ## Claim C1 -/

/-- Counterexample to claim C1 as stated: a handler (performing no writes)
returns a structured API error with status 404 and an empty message list;
the response status is 404 but the decoded error message list is empty —
it does not become the standard reason phrase `["Not Found"]` as the claim
requires for empty message lists. -/
theorem claim_C1_counterexample :
    (clientView (dispatch { method := "GET", contentType := "" }
        { ops := [], result := HResult.apiErr 404 [] none }).trace).code = 404 ∧
    decodeErrorBody (clientView (dispatch { method := "GET", contentType := "" }
        { ops := [], result := HResult.apiErr 404 [] none }).trace).body = some [] ∧
    some ([] : List String) ≠ some [statusText 404] := by
  refine ⟨by decide, by decide, by decide⟩

/-- Claim C1 as amended: for a handler that returns a structured API error
with status `S` and messages `M` having written nothing itself, the terminal
response has status `S` and its decoded error message list equals `M` —
including when `M` is empty, in which case the list stays empty (serialized
as JSON `null`) rather than defaulting to the reason phrase for `S`. -/
theorem claim_C1_amended (r : Request) (hb : HandlerBehavior) (S : Nat) (M : List String)
    (c : Option String)
    (hgate : gateRejects r = false)
    (hres : hb.result = HResult.apiErr S M c)
    (hw : (applyOps RWState.start hb.ops).isWritten = false) :
    dispatch r hb
      = { trace := hb.ops ++ errorWriteFlex S M, handlerInvocations := 1 } ∧
    (clientView (dispatch r hb).trace).code = S ∧
    decodeErrorBody (clientView (dispatch r hb).trace).body = some M := by
  have hd : dispatch r hb
      = { trace := hb.ops ++ errorWriteFlex S M, handlerInvocations := 1 } := by
    simp [dispatch, hgate, hres]
  have hall := isWritten_false_ops hb.ops RWState.start hw
  have hro := replay_setOnly hb.ops Recorder.init hall
  have hwh : (replay Recorder.init hb.ops).wroteHeader = false := hro.1
  have hew := replay_errorWriteFlex (replay Recorder.init hb.ops) hwh S M
  have hbody : (replay Recorder.init hb.ops).body = "" := hro.2.2
  refine ⟨hd, ?_, ?_⟩
  · rw [hd]
    show (clientView (hb.ops ++ errorWriteFlex S M)).code = S
    rw [clientView_append]
    exact hew.1
  · rw [hd]
    show decodeErrorBody (clientView (hb.ops ++ errorWriteFlex S M)).body = some M
    rw [clientView_append]
    have h2 := hew.2.1
    rw [hbody, string_empty_append] at h2
    rw [h2]
    exact decode_encode M

/-- Witness for the amended C1 at a concrete input: a two-message structured
error with status 403. -/
theorem claim_C1_witness :
    gateRejects { method := "GET", contentType := "" } = false ∧
    (applyOps RWState.start ([] : List WriteOp)).isWritten = false ∧
    ((clientView (dispatch { method := "GET", contentType := "" }
        { ops := [], result := HResult.apiErr 403 ["denied", "ask admin"] none }).trace).code
        = 403 ∧
      decodeErrorBody (clientView (dispatch { method := "GET", contentType := "" }
        { ops := [], result := HResult.apiErr 403 ["denied", "ask admin"] none }).trace).body
        = some ["denied", "ask admin"]) :=
  ⟨rfl, rfl,
    (claim_C1_amended { method := "GET", contentType := "" }
      { ops := [], result := HResult.apiErr 403 ["denied", "ask admin"] none }
      403 ["denied", "ask admin"] none rfl rfl rfl).2⟩

/-! ## Claim C3 -/

/-- Counterexample to claim C3 as stated: a handler that first writes a 200
status line and then returns an opaque error; the status-line observed by
the client is 200 (the dispatcher's 500 status write is superfluous and the
transport ignores it), not 500 as the claim requires for every handler
returning an opaque error. -/
theorem claim_C3_counterexample :
    (clientView (dispatch { method := "GET", contentType := "" }
        { ops := [WriteOp.writeHeader 200], result := HResult.opaqueErr "boom" }).trace).code
      = 200 ∧
    (200 : Nat) ≠ 500 := by
  refine ⟨by decide, by decide⟩

/-- Claim C3 as amended: a handler that returns an opaque error having
written nothing itself yields status 500 and the decoded message list
exactly `["Internal Server Error"]`; moreover, for any other opaque error
text (same handler writes), the dispatch result is identical — the opaque
error's text never reaches the wire. -/
theorem claim_C3_amended (r : Request) (hb : HandlerBehavior) (t : String)
    (hres : hb.result = HResult.opaqueErr t) :
    (∀ t2, dispatch r { ops := hb.ops, result := HResult.opaqueErr t2 } = dispatch r hb) ∧
    (gateRejects r = false → (applyOps RWState.start hb.ops).isWritten = false →
      dispatch r hb
        = { trace := hb.ops ++ errorWriteFlex 500 ["Internal Server Error"],
            handlerInvocations := 1 } ∧
      (clientView (dispatch r hb).trace).code = 500 ∧
      decodeErrorBody (clientView (dispatch r hb).trace).body
        = some ["Internal Server Error"]) := by
  constructor
  · intro t2
    simp [dispatch, hres]
  · intro hgate hw
    have hd : dispatch r hb
        = { trace := hb.ops ++ errorWriteFlex 500 [statusText 500], handlerInvocations := 1 } := by
      simp [dispatch, hgate, hres]
    rw [show statusText 500 = "Internal Server Error" from rfl] at hd
    have hall := isWritten_false_ops hb.ops RWState.start hw
    have hro := replay_setOnly hb.ops Recorder.init hall
    have hwh : (replay Recorder.init hb.ops).wroteHeader = false := hro.1
    have hew := replay_errorWriteFlex (replay Recorder.init hb.ops) hwh 500
      ["Internal Server Error"]
    have hbody : (replay Recorder.init hb.ops).body = "" := hro.2.2
    refine ⟨hd, ?_, ?_⟩
    · rw [hd]
      show (clientView (hb.ops ++ errorWriteFlex 500 ["Internal Server Error"])).code = 500
      rw [clientView_append]
      exact hew.1
    · rw [hd]
      show decodeErrorBody
          (clientView (hb.ops ++ errorWriteFlex 500 ["Internal Server Error"])).body
          = some ["Internal Server Error"]
      rw [clientView_append]
      have h2 := hew.2.1
      rw [hbody, string_empty_append] at h2
      rw [h2]
      exact decode_encode ["Internal Server Error"]

/-- Witness for the amended C3 at a concrete input: two different opaque
error texts produce the same dispatch result, a 500 with
`["Internal Server Error"]`. -/
theorem claim_C3_witness :
    (dispatch { method := "GET", contentType := "" }
        { ops := [], result := HResult.opaqueErr "disk on fire" }
      = dispatch { method := "GET", contentType := "" }
        { ops := [], result := HResult.opaqueErr "boom" }) ∧
    gateRejects { method := "GET", contentType := "" } = false ∧
    (applyOps RWState.start ([] : List WriteOp)).isWritten = false ∧
    ((clientView (dispatch { method := "GET", contentType := "" }
        { ops := [], result := HResult.opaqueErr "boom" }).trace).code = 500 ∧
      decodeErrorBody (clientView (dispatch { method := "GET", contentType := "" }
        { ops := [], result := HResult.opaqueErr "boom" }).trace).body
        = some ["Internal Server Error"]) :=
  ⟨(claim_C3_amended { method := "GET", contentType := "" }
      { ops := [], result := HResult.opaqueErr "boom" } "boom" rfl).1 "disk on fire",
   rfl, rfl,
   ((claim_C3_amended { method := "GET", contentType := "" }
      { ops := [], result := HResult.opaqueErr "boom" } "boom" rfl).2 rfl rfl).2⟩

/-! ## Claim C4 -/

/-- Claim C4 (confirmed): a handler that wrote a status and/or body through
the tracked response writer and returns nil triggers no additional write by
the dispatcher — the trace that reaches the client is exactly the handler's
own, so status and body observed by the client equal what the handler
wrote. -/
theorem claim_C4 (r : Request) (hb : HandlerBehavior)
    (hgate : gateRejects r = false)
    (hres : hb.result = HResult.ok)
    (hw : (applyOps RWState.start hb.ops).isWritten = true) :
    dispatch r hb = { trace := hb.ops, handlerInvocations := 1 } ∧
    clientView (dispatch r hb).trace = clientView hb.ops := by
  have hd : dispatch r hb = { trace := hb.ops, handlerInvocations := 1 } := by
    simp [dispatch, hgate, hres, hw]
  exact ⟨hd, by rw [hd]⟩

/-- Witness for C4 at a concrete input: a handler that writes a 204 status
and a body and returns nil is passed through untouched. -/
theorem claim_C4_witness :
    gateRejects { method := "GET", contentType := "" } = false ∧
    (applyOps RWState.start [WriteOp.writeHeader 204, WriteOp.write "ok"]).isWritten = true ∧
    (dispatch { method := "GET", contentType := "" }
        { ops := [WriteOp.writeHeader 204, WriteOp.write "ok"], result := HResult.ok }
      = { trace := [WriteOp.writeHeader 204, WriteOp.write "ok"], handlerInvocations := 1 } ∧
      clientView (dispatch { method := "GET", contentType := "" }
        { ops := [WriteOp.writeHeader 204, WriteOp.write "ok"], result := HResult.ok }).trace
      = clientView [WriteOp.writeHeader 204, WriteOp.write "ok"]) :=
  ⟨rfl, rfl,
    claim_C4 { method := "GET", contentType := "" }
      { ops := [WriteOp.writeHeader 204, WriteOp.write "ok"], result := HResult.ok }
      rfl rfl rfl⟩

/-! ## Claim C5 -/

/-- Claim C5 (confirmed): a POST/PUT/PATCH request whose `Content-Type`
header has no comma-separated media type with an accepted prefix (including
an absent or unparsable header) is rejected with HTTP 415 and the wrapped
handler is never invoked. -/
theorem claim_C5 (r : Request) (hb : HandlerBehavior)
    (hmut : isMutating r.method = true)
    (hct : contentTypeAccepted r.contentType = false) :
    dispatch r hb = { trace := errorWriteFlex 415 [gateMsg], handlerInvocations := 0 } ∧
    (clientView (dispatch r hb).trace).code = 415 ∧
    (dispatch r hb).handlerInvocations = 0 := by
  have hg : gateRejects r = true := by simp [gateRejects, hmut, hct]
  have hd : dispatch r hb
      = { trace := errorWriteFlex 415 [gateMsg], handlerInvocations := 0 } := by
    simp [dispatch, hg]
  refine ⟨hd, ?_, by rw [hd]⟩
  rw [hd]
  show (clientView (errorWriteFlex 415 [gateMsg])).code = 415
  exact (replay_errorWriteFlex Recorder.init rfl 415 [gateMsg]).1

/-- Witness for C5 at a concrete input: a POST with `Content-Type:
text/plain` is gated, with zero handler invocations, even though the
handler would have written a 200. -/
theorem claim_C5_witness :
    isMutating "POST" = true ∧
    contentTypeAccepted "text/plain" = false ∧
    ((clientView (dispatch { method := "POST", contentType := "text/plain" }
        { ops := [WriteOp.writeHeader 200], result := HResult.ok }).trace).code = 415 ∧
      (dispatch { method := "POST", contentType := "text/plain" }
        { ops := [WriteOp.writeHeader 200], result := HResult.ok }).handlerInvocations = 0) :=
  ⟨rfl, by decide,
    (claim_C5 { method := "POST", contentType := "text/plain" }
      { ops := [WriteOp.writeHeader 200], result := HResult.ok } rfl (by decide)).2⟩

/-! ## Claim C6 -/

/-- Claim C6 (code bug): the gate-rejection message is NOT exactly
`POST, PUT, and PATCH methods require request content type of
"application/json" or "application/x-www-form-urlencoded"` — the separator
loop in `src/restflex.go` line 55 tests `i-1 < len(acceptedContentTypes)`,
which is true at every index, so ` or ` is also appended after the last
accepted type.  The wire body for a gated request decodes to the message
with the trailing ` or `. -/
theorem claim_C6_code_bug :
    gateMsg
      = "POST, PUT, and PATCH methods require request content type of \"application/json\" or \"application/x-www-form-urlencoded\""
        ++ " or " ∧
    gateMsg
      ≠ "POST, PUT, and PATCH methods require request content type of \"application/json\" or \"application/x-www-form-urlencoded\"" ∧
    (clientView (dispatch { method := "POST", contentType := "" }
        { ops := [], result := HResult.ok }).trace).code = 415 ∧
    decodeErrorBody (clientView (dispatch { method := "POST", contentType := "" }
        { ops := [], result := HResult.ok }).trace).body = some [gateMsg] := by
  have hg : gateRejects { method := "POST", contentType := "" } = true := by decide
  have hd : dispatch { method := "POST", contentType := "" } { ops := [], result := HResult.ok }
      = { trace := errorWriteFlex 415 [gateMsg], handlerInvocations := 0 } := by
    simp [dispatch, hg]
  have hrep := replay_errorWriteFlex Recorder.init rfl 415 [gateMsg]
  refine ⟨by decide, by decide, ?_, ?_⟩
  · rw [hd]
    exact hrep.1
  · rw [hd]
    show decodeErrorBody (clientView (errorWriteFlex 415 [gateMsg])).body = some [gateMsg]
    have h2 := hrep.2.1
    rw [show Recorder.init.body = "" from rfl, string_empty_append] at h2
    show decodeErrorBody (replay Recorder.init (errorWriteFlex 415 [gateMsg])).body
        = some [gateMsg]
    rw [h2]
    exact decode_encode [gateMsg]

/-! ## Claim C7 -/

/-- Claim C7 (confirmed): when the execution context's cancellation cause is
deadline expiry, the watcher of `src/rest.go` emits the 429 response whose
JSON body carries the message `request took too long to complete`; when the
cause is a plain cancellation (e.g. after normal completion), the watcher
writes nothing at all. -/
theorem claim_C7 :
    watcherTrace CtxReason.deadlineExceeded
      = errorWriteRest "request took too long to complete" 429 ∧
    (clientView (watcherTrace CtxReason.deadlineExceeded)).code = 429 ∧
    (clientView (watcherTrace CtxReason.deadlineExceeded)).body
      = encodeMessageBody "request took too long to complete" ∧
    encodeMessageBody "request took too long to complete"
      = "\x7b\"message\":\"request took too long to complete\"\x7d\n" ∧
    watcherTrace CtxReason.canceled = [] := by
  refine ⟨rfl, rfl, rfl, by decide, rfl⟩

/-! ## Claim C8 -/

/-- Claim C8 (code bug): the error responder calls `WriteHeader` before
`Header().Set("Content-Type", ...)` (`src/restflex.go` lines 109-110), so
the header map is committed to the client before the entry is added: on the
501 path the trace does contain the `setHeader` operation and the final
header map holds the entry, yet the header snapshot the client observes
does not contain `Content-Type: application/json; charset=utf-8`. -/
theorem claim_C8_code_bug :
    (dispatch { method := "GET", contentType := "" }
        { ops := [], result := HResult.ok }).trace
      = errorWriteFlex 501 ["Not Implemented"] ∧
    (clientView (dispatch { method := "GET", contentType := "" }
        { ops := [], result := HResult.ok }).trace).headerMap.lookup "Content-Type"
      = some "application/json; charset=utf-8" ∧
    (clientView (dispatch { method := "GET", contentType := "" }
        { ops := [], result := HResult.ok }).trace).snapHeader = [] ∧
    (clientView (dispatch { method := "GET", contentType := "" }
        { ops := [], result := HResult.ok }).trace).snapHeader.lookup "Content-Type"
      ≠ some "application/json; charset=utf-8" := by
  refine ⟨by decide, by decide, by decide, by decide⟩

/-! ## Claim C9 -/

/-- Counterexample to claim C9 as stated: on a decode failure the restflex
`DecodeJSON` returns `NewAPIError(400, cause)` with an empty message list —
the user-facing message list is not `["malformed request body"]` (that
string occurs nowhere in the repository). -/
theorem claim_C9_counterexample :
    DecodeJSONFlex (DecodeOutcome.fail "unexpected EOF")
      = some { statusCode := 400, cause := some "unexpected EOF", messages := [] } ∧
    (DecodeJSONFlex (DecodeOutcome.fail "unexpected EOF")).map APIErrorVal.errorsList
      ≠ some ["malformed request body"] := by
  refine ⟨rfl, by decide⟩

/-- Claim C9 as amended: on a decode failure, `DecodeJSON` returns a
structured API error whose status code is 400 wrapping the decoder's error
as cause; the restflex variant attaches no user-facing message (empty
`Errors()` list), while the rest variant wraps `ErrInvalidRequestBody`,
whose message is `expecting well formed JSON request body`.  When decoding
succeeds both variants return nil. -/
theorem claim_C9_amended (c : String) :
    DecodeJSONFlex DecodeOutcome.ok = none ∧
    DecodeJSONFlex (DecodeOutcome.fail c) = some (NewAPIErrorVal 400 (some c) []) ∧
    (DecodeJSONFlex (DecodeOutcome.fail c)).map APIErrorVal.statusCode = some 400 ∧
    (DecodeJSONFlex (DecodeOutcome.fail c)).map APIErrorVal.errorsList = some [] ∧
    DecodeJSONRest DecodeOutcome.ok = none ∧
    DecodeJSONRest (DecodeOutcome.fail c)
      = some { causeText := c,
               wrapped := { statusCode := 400,
                            message := "expecting well formed JSON request body" } } :=
  ⟨rfl, rfl, rfl, rfl, rfl, rfl⟩

/-! ## Claim C10 -/

/-- Claim C10 (confirmed): `responseWriter.Write` sets `isWritten` to true
and returns the underlying sink's byte count and error unchanged — in
particular `isWritten` becomes true for every underlying outcome, including
ones whose error component is non-nil — and leaves the recorded status
untouched. -/
theorem claim_C10 (underlying : SinkWrite) (w : TrackedWriter) (b : String) :
    (trackedWrite underlying w b).1.isWritten = true ∧
    (trackedWrite underlying w b).2 = underlying b ∧
    (trackedWrite underlying w b).1.status = w.status :=
  ⟨rfl, rfl, rfl⟩
